import Mathlib

/-!
Shallow embedding of `src/btc_bot.py` (a BTC-USD price-watch-and-buy bot)
together with proofs about its behaviour.

Modelling conventions:
* Python floats (prices, USD amounts, `time.time()` values) are modelled as
  exact rationals `ℚ`; the binary-float rounding performed inside Python's
  `f"{x:.8f}"` is modelled as exact decimal rounding of the rational value.
* The Coinbase `RESTClient` is an external collaborator: its observable
  responses (quote payload, order response) are inputs to the embedded
  functions, and the client itself is reduced to the credential pair handed
  to its constructor.
* `os.environ` is modelled as the three variables the script reads (after
  `load_dotenv`); the filesystem is a map from paths to read results, with
  `Path.expanduser` absorbed into that map.
* The two `time.time()` calls inside one loop iteration (line 136 and
  line 144 of btc_bot.py) are modelled as a single instant `now` per
  iteration.
-/

namespace BtcBot

/-- The module constant `TARGET_PRICE = 90_000.0` (btc_bot.py line 12). -/
def TARGET_PRICE : ℚ := 90000

/-- The module constant `USD_TO_SPEND = 100.0` (btc_bot.py line 13). -/
def USD_TO_SPEND : ℚ := 100

/-- The module constant `POLL_INTERVAL = 10` (btc_bot.py line 14). -/
def POLL_INTERVAL : ℚ := 10

/-- The module constant `PRODUCT_ID = "BTC-USD"` (btc_bot.py line 15). -/
def PRODUCT_ID : String := "BTC-USD"

/-- The module constant `BUY_COOLDOWN = 604800` (btc_bot.py line 16). -/
def BUY_COOLDOWN : ℚ := 604800

/-- The character for the decimal digit `n % 10`. -/
def digitChar (n : Nat) : Char := Char.ofNat (48 + n % 10)

/-- Fixed-width base-10 rendering of a natural number: exactly `d` digit
characters, most significant first, leading zeros kept. -/
def natDigitsPadded : Nat → Nat → List Char
  | 0, _ => []
  | d + 1, n => natDigitsPadded d (n / 10) ++ [digitChar n]

/-- The value `q * 10 ^ d` rounded to the nearest integer (ties up), on the
numerator and denominator: `⌊x + 1/2⌋` with `x = (q.num * 10 ^ d) / q.den`.
Integer `/` here is Euclidean division, which is floor division for the
positive denominator. -/
def decScaled (q : ℚ) (d : Nat) : ℤ :=
  (2 * q.num * 10 ^ d + (q.den : ℤ)) / (2 * (q.den : ℤ))

/-- Model of Python's fixed-point formatting `f"{x:.df}"`: round
`q * 10 ^ d` to the nearest integer (Python rounds the underlying binary
float half-to-even, which agrees on every non-tie input) and render with
exactly `d` digits after the decimal point. -/
def formatFixed (q : ℚ) (d : Nat) : String :=
  let scaled : ℤ := decScaled q d
  let sign : String := if scaled < 0 then "-" else ""
  let n : Nat := scaled.natAbs
  sign ++ toString (n / 10 ^ d) ++ "." ++ String.mk (natDigitsPadded d (n % 10 ^ d))

/-- Result of the quote lookup `client.get_product(product_id)`, restricted
to the `"price"` field that `get_current_price` reads: the field can be
absent, present but not parseable as a float, or a numeric value. -/
inductive PriceField
  | absent
  | malformed (raw : String)
  | value (p : ℚ)
deriving DecidableEq

/-- Embedding of `get_current_price` (btc_bot.py lines 82-86):
`float(product["price"])` raises `KeyError` when the field is absent and
`ValueError` when it is not numeric; both surface as an exception, modelled
as the error message. -/
def get_current_price (quote : PriceField) : Except String ℚ :=
  match quote with
  | .absent => .error "KeyError: price"
  | .malformed raw => .error ("could not convert string to float: " ++ raw)
  | .value p => .ok p

/-- The keyword arguments of the `client.limit_order_gtc_buy(...)` call made
by `place_limit_buy` (btc_bot.py lines 101-106). -/
structure OrderRequest where
  client_order_id : String
  product_id : String
  base_size : String
  limit_price : String
deriving DecidableEq

/-- The response of `limit_order_gtc_buy`: either `success` carrying
`success_response["order_id"]`, or a failure carrying the `error_response`
payload. -/
inductive OrderResponse
  | success (order_id : String)
  | failure (error_response : String)
deriving DecidableEq

/-- Embedding of the order construction in `place_limit_buy`
(btc_bot.py lines 89-106): `base_size = USD_TO_SPEND / limit_price`,
submitted as `f"{base_size:.8f}"` together with `f"{limit_price:.2f}"`.
`usdToSpend` stands for the module constant `USD_TO_SPEND`;
`client_order_id` is the freshly generated `uuid4` string. -/
def place_limit_buy_request (usdToSpend : ℚ) (product_id : String)
    (limit_price : ℚ) (client_order_id : String) : OrderRequest :=
  let base_size := usdToSpend / limit_price
  { client_order_id := client_order_id
    product_id := product_id
    base_size := formatFixed base_size 8
    limit_price := formatFixed limit_price 2 }

/-- Embedding of the response handling in `place_limit_buy`
(btc_bot.py lines 111-118): return the order id on `success`, print the
`error_response` and return `None` otherwise. -/
def place_limit_buy_result (order : OrderResponse) : Option String :=
  match order with
  | .success order_id => some order_id
  | .failure _ => none

/-- Python truthiness of an optional string (`if json_path:`,
`if order_id:`, `if not api_key`): `None` and `""` are falsy. -/
def pyTruthy : Option String → Bool
  | none => false
  | some s => s != ""

/-- The configuration constants `main` reads (btc_bot.py lines 12-16), kept
abstract so that theorems can quantify over them. -/
structure LoopConfig where
  target_price : ℚ
  usd_to_spend : ℚ
  buy_cooldown : ℚ
  product_id : String
deriving DecidableEq

/-- The concrete module configuration of btc_bot.py. -/
def mainConfig : LoopConfig :=
  { target_price := TARGET_PRICE
    usd_to_spend := USD_TO_SPEND
    buy_cooldown := BUY_COOLDOWN
    product_id := PRODUCT_ID }

/-- The only state carried from one loop iteration to the next:
`last_buy_time` (btc_bot.py line 129, updated at line 144). -/
structure BotState where
  last_buy_time : ℚ
deriving DecidableEq

/-- Initially `last_buy_time = 0` (btc_bot.py line 129). -/
def initialState : BotState := { last_buy_time := 0 }

/-- The external inputs consumed by one iteration of the `while True` loop:
the clock value (`time.time()`), the quote payload returned by the
exchange, the response the exchange would give to an order placed in this
iteration, and the `uuid4` value generated for it. -/
structure IterInput where
  now : ℚ
  quote : PriceField
  order_response : OrderResponse
  uuid : String
deriving DecidableEq

/-- What one loop iteration did; mirrors the observable branches of `main`
(fetch error caught at line 146, cooldown message at line 139, no action at
price above target, or a call to `place_limit_buy`). -/
inductive IterAction
  | fetch_error (msg : String)
  | on_cooldown
  | no_buy (price : ℚ)
  | buy_attempt (req : OrderRequest) (response : OrderResponse)
deriving DecidableEq

/-- The iteration called `place_limit_buy`. -/
def IterAction.attemptsOrder : IterAction → Bool
  | .buy_attempt _ _ => true
  | _ => false

/-- The iteration placed an order and `place_limit_buy` returned a truthy
order id (`if order_id:` at btc_bot.py line 143). -/
def IterAction.orderSucceeded : IterAction → Bool
  | .buy_attempt _ (.success order_id) => order_id != ""
  | _ => false

/-- One iteration of the `while True` loop in `main` (btc_bot.py
lines 131-149): fetch the price — any exception is caught by the `except`
block, printed, and the iteration ends — then check the cooldown, compare
against the target, and possibly place the order, updating `last_buy_time`
only when `place_limit_buy` returned a truthy order id. -/
def stepIter (cfg : LoopConfig) (st : BotState) (inp : IterInput) :
    BotState × IterAction :=
  match get_current_price inp.quote with
  | .error msg => (st, .fetch_error msg)
  | .ok price =>
    if inp.now - st.last_buy_time < cfg.buy_cooldown then
      (st, .on_cooldown)
    else if price ≤ cfg.target_price then
      let req := place_limit_buy_request cfg.usd_to_spend cfg.product_id
        cfg.target_price inp.uuid
      let order_id := place_limit_buy_result inp.order_response
      if pyTruthy order_id then
        ({ last_buy_time := inp.now }, .buy_attempt req inp.order_response)
      else
        (st, .buy_attempt req inp.order_response)
    else
      (st, .no_buy price)

/-- The `while True` loop run over a finite prefix of its input stream.
The loop body contains no `break` or `return`, so every supplied iteration
executes; the per-iteration actions are collected in order. -/
def runIters (cfg : LoopConfig) (st : BotState) :
    List IterInput → BotState × List IterAction
  | [] => (st, [])
  | inp :: rest =>
    let s := stepIter cfg st inp
    let r := runIters cfg s.1 rest
    (r.1, s.2 :: r.2)

/-- The environment variables read by `get_client` (btc_bot.py lines 64-69),
as they stand after `load_dotenv`. -/
structure Env where
  coinbase_api_json_path : Option String
  coinbase_api_key : Option String
  coinbase_api_secret : Option String

/-- What reading and JSON-parsing a credential file can yield, as far as
`load_credentials_from_json` observes it: the path does not exist, reading
or `json.loads` raises, or a JSON object whose string fields are listed. -/
inductive FileRead
  | absent
  | unreadable (detail : String)
  | object (fields : List (String × String))

/-- The filesystem as seen through `Path(path).expanduser()` followed by
`read_text` and `json.loads`; user-directory expansion is absorbed into the
map. -/
def Fs : Type := String → FileRead

/-- The whitespace stripped by Python's `str.strip()` (ASCII part). -/
def isPySpace (c : Char) : Bool :=
  c == ' ' || c == '\t' || c == '\n' || c == '\r' || c == '\x0b' || c == '\x0c'

/-- Python `str.strip()`: drop leading and trailing whitespace. -/
def pyStrip (s : String) : String :=
  String.mk (((s.data.dropWhile isPySpace).reverse.dropWhile isPySpace).reverse)

/-- Left-to-right scan replacing each occurrence of the two-character
sequence backslash-`n` with a newline, as Python's
`"...".replace("\\n", "\n")` does. -/
def unescapeNewlines : List Char → List Char
  | [] => []
  | '\\' :: 'n' :: rest => '\n' :: unescapeNewlines rest
  | c :: rest => c :: unescapeNewlines rest

/-- Python `s.replace("\\n", "\n")` on the private-key text. -/
def pyReplaceEscapedNewlines (s : String) : String :=
  String.mk (unescapeNewlines s.data)

/-- Embedding of `load_credentials_from_json` (btc_bot.py lines 20-49):
fail if the path does not exist, if reading or parsing raises, if the
object lacks `id` or `privateKey`, or if either value is empty after
normalisation; otherwise return the normalised pair. -/
def load_credentials_from_json (fs : Fs) (path : String) :
    Except String (String × String) :=
  match fs path with
  | .absent => .error ("COINBASE_API_JSON_PATH does not exist: " ++ path)
  | .unreadable detail =>
    .error ("Failed to read or parse JSON credentials at " ++ path ++ ": " ++ detail)
  | .object fields =>
    match fields.lookup "id", fields.lookup "privateKey" with
    | some idField, some keyField =>
      let api_key := pyStrip idField
      let api_secret := pyStrip (pyReplaceEscapedNewlines keyField)
      if api_key == "" || api_secret == "" then
        .error "Empty 'id' or 'privateKey' in JSON credentials."
      else
        .ok (api_key, api_secret)
    | _, _ =>
      .error "JSON credentials must contain 'id' and 'privateKey' fields from Coinbase."

/-- The arguments handed to the `RESTClient` constructor (btc_bot.py
line 79); the client itself is external. -/
structure RESTClient where
  api_key : String
  api_secret : String
deriving DecidableEq

/-- Embedding of `get_client` (btc_bot.py lines 52-79): when
`COINBASE_API_JSON_PATH` is truthy, load the JSON bundle from that path;
otherwise require both `COINBASE_API_KEY` and `COINBASE_API_SECRET`,
normalising them the same way. -/
def get_client (env : Env) (fs : Fs) : Except String RESTClient :=
  if pyTruthy env.coinbase_api_json_path then
    match load_credentials_from_json fs (env.coinbase_api_json_path.getD "") with
    | .ok (api_key, api_secret) => .ok { api_key := api_key, api_secret := api_secret }
    | .error e => .error e
  else
    if pyTruthy env.coinbase_api_key && pyTruthy env.coinbase_api_secret then
      .ok { api_key := pyStrip ((env.coinbase_api_key).getD "")
            api_secret := pyStrip (pyReplaceEscapedNewlines ((env.coinbase_api_secret).getD "")) }
    else
      .error "Provide COINBASE_API_JSON_PATH or both COINBASE_API_KEY and COINBASE_API_SECRET."

/-- Embedding of `main` (btc_bot.py lines 121-149): build the client — a
credential failure propagates before the loop is entered — then run the
watch loop from `last_buy_time = 0` under the module configuration. -/
def mainRun (env : Env) (fs : Fs) (inputs : List IterInput) :
    Except String (BotState × List IterAction) :=
  match get_client env fs with
  | .error e => .error e
  | .ok _ => .ok (runIters mainConfig initialState inputs)

/-- The bad credential configurations enumerated by the spec and the claim:
a truthy JSON path whose file is absent, unreadable or malformed, whose
object lacks `id` or `privateKey`, or whose values normalise to empty; or
no truthy JSON path and not both environment variables truthy. -/
def badCredConfig (env : Env) (fs : Fs) : Bool :=
  if pyTruthy env.coinbase_api_json_path then
    match fs (env.coinbase_api_json_path.getD "") with
    | .absent => true
    | .unreadable _ => true
    | .object fields =>
      match fields.lookup "id", fields.lookup "privateKey" with
      | some idField, some keyField =>
        pyStrip idField == "" || pyStrip (pyReplaceEscapedNewlines keyField) == ""
      | _, _ => true
  else
    !(pyTruthy env.coinbase_api_key) || !(pyTruthy env.coinbase_api_secret)

/-- The string `s` is a decimal numeral carrying exactly `d` digits after the point. -/
def hasFracDigits (s : String) (d : Nat) : Prop :=
  ∃ intPart frac, s = intPart ++ "." ++ frac ∧
    frac.length = d ∧ ∀ c ∈ frac.data, c.isDigit

/-- Indeed `decScaled` computes the floor of `q * 10 ^ d + 1/2`. -/
lemma decScaled_eq_floor (q : ℚ) (d : Nat) :
    decScaled q d = ⌊q * 10 ^ d + 1 / 2⌋ := by
  have hden0 : ((q.den : ℚ)) ≠ 0 := Nat.cast_ne_zero.mpr q.den_nz
  have key : q * 10 ^ d + 1 / 2 =
      (((2 * q.num * 10 ^ d + (q.den : ℤ) : ℤ) : ℚ)) / (((2 * q.den : ℕ) : ℚ)) := by
    rw [eq_div_iff (by push_cast; positivity)]
    push_cast
    nth_rewrite 1 [← Rat.num_div_den q]
    field_simp
    ring
  rw [key, Rat.floor_intCast_div_natCast]
  unfold decScaled
  push_cast
  rfl

/-- Characterisation of `decScaled` usable on concrete rationals. -/
lemma decScaled_eq_iff (q : ℚ) (d : Nat) (z : ℤ) :
    decScaled q d = z ↔ ((z : ℚ) ≤ q * 10 ^ d + 1 / 2 ∧ q * 10 ^ d + 1 / 2 < z + 1) := by
  rw [decScaled_eq_floor, Int.floor_eq_iff]

/-- Evaluation of `formatFixed` through a known value of `decScaled`. -/
lemma formatFixed_of_decScaled (q : ℚ) (d : Nat) (z : ℤ) (h : decScaled q d = z) :
    formatFixed q d = (if z < 0 then "-" else "") ++ toString (z.natAbs / 10 ^ d)
      ++ "." ++ String.mk (natDigitsPadded d (z.natAbs % 10 ^ d)) := by
  unfold formatFixed
  rw [h]

/-- The padded digit list has exactly the requested width. -/
lemma length_natDigitsPadded (d n : Nat) : (natDigitsPadded d n).length = d := by
  induction d generalizing n with
  | zero => rfl
  | succ d ih => simp [natDigitsPadded, ih]

/-- Every digit character is a decimal digit. -/
lemma digitChar_isDigit (n : Nat) : (digitChar n).isDigit = true := by
  have h : n % 10 < 10 := Nat.mod_lt _ (by norm_num)
  unfold digitChar
  interval_cases h : n % 10 <;> decide

/-- The padded digit list consists of decimal digits. -/
lemma mem_natDigitsPadded_isDigit (d n : Nat) :
    ∀ c ∈ natDigitsPadded d n, c.isDigit := by
  induction d generalizing n with
  | zero => intro c hc; simp [natDigitsPadded] at hc
  | succ d ih =>
    intro c hc
    rcases List.mem_append.mp hc with h | h
    · exact ih _ c h
    · rcases List.mem_singleton.mp h with rfl
      exact digitChar_isDigit n

/-- Always `formatFixed` renders exactly `d` fractional digits. -/
lemma formatFixed_hasFracDigits (q : ℚ) (d : Nat) :
    hasFracDigits (formatFixed q d) d := by
  refine ⟨(if decScaled q d < 0 then "-" else "")
      ++ toString ((decScaled q d).natAbs / 10 ^ d),
    String.mk (natDigitsPadded d ((decScaled q d).natAbs % 10 ^ d)), ?_, ?_, ?_⟩
  · unfold formatFixed
    simp [String.append_assoc]
  · show (natDigitsPadded d ((decScaled q d).natAbs % 10 ^ d)).length = d
    exact length_natDigitsPadded _ _
  · exact mem_natDigitsPadded_isDigit _ _

/-- A failing price fetch is caught: the iteration only reports it. -/
lemma stepIter_fetchError (cfg : LoopConfig) (st : BotState) (inp : IterInput)
    (msg : String) (h : get_current_price inp.quote = .error msg) :
    stepIter cfg st inp = (st, .fetch_error msg) := by
  unfold stepIter
  rw [h]

/-- Within the cooldown window the iteration does nothing but report it. -/
lemma stepIter_onCooldown (cfg : LoopConfig) (st : BotState) (inp : IterInput)
    (price : ℚ) (hfetch : get_current_price inp.quote = .ok price)
    (hcool : inp.now - st.last_buy_time < cfg.buy_cooldown) :
    stepIter cfg st inp = (st, .on_cooldown) := by
  simp only [stepIter, hfetch]
  rw [if_pos hcool]

/-- Off cooldown with the price at most the target, the iteration places the
order built from the configured target price and updates `last_buy_time`
exactly when the returned order id is truthy. -/
lemma stepIter_buy (cfg : LoopConfig) (st : BotState) (inp : IterInput)
    (price : ℚ) (hfetch : get_current_price inp.quote = .ok price)
    (hcool : ¬ (inp.now - st.last_buy_time < cfg.buy_cooldown))
    (hle : price ≤ cfg.target_price) :
    stepIter cfg st inp =
      (if pyTruthy (place_limit_buy_result inp.order_response) then
        { last_buy_time := inp.now } else st,
       .buy_attempt
         (place_limit_buy_request cfg.usd_to_spend cfg.product_id
           cfg.target_price inp.uuid)
         inp.order_response) := by
  simp only [stepIter, hfetch]
  rw [if_neg hcool, if_pos hle]
  by_cases ht : pyTruthy (place_limit_buy_result inp.order_response) <;> simp [ht]

/-- Off cooldown with the price above the target, the iteration does
nothing. -/
lemma stepIter_noBuy (cfg : LoopConfig) (st : BotState) (inp : IterInput)
    (price : ℚ) (hfetch : get_current_price inp.quote = .ok price)
    (hcool : ¬ (inp.now - st.last_buy_time < cfg.buy_cooldown))
    (hgt : ¬ price ≤ cfg.target_price) :
    stepIter cfg st inp = (st, .no_buy price) := by
  simp only [stepIter, hfetch]
  rw [if_neg hcool, if_neg hgt]

/-- Off cooldown with a successful fetch, an order is attempted exactly when
the price is at most the target. -/
lemma stepIter_attemptsOrder_iff (cfg : LoopConfig) (st : BotState)
    (inp : IterInput) (price : ℚ)
    (hfetch : get_current_price inp.quote = .ok price)
    (hcool : ¬ (inp.now - st.last_buy_time < cfg.buy_cooldown)) :
    ((stepIter cfg st inp).2.attemptsOrder = true ↔ price ≤ cfg.target_price) := by
  by_cases hle : price ≤ cfg.target_price
  · rw [stepIter_buy cfg st inp price hfetch hcool hle]
    simp [IterAction.attemptsOrder, hle]
  · rw [stepIter_noBuy cfg st inp price hfetch hcool hle]
    simp [IterAction.attemptsOrder, hle]

/-- The loop body has no exit: every supplied iteration produces an action. -/
lemma runIters_length (cfg : LoopConfig) (st : BotState) (inps : List IterInput) :
    ((runIters cfg st inps).2).length = inps.length := by
  induction inps generalizing st with
  | nil => rfl
  | cons inp rest ih => simp [runIters, ih]

/-- C1: in every loop iteration that is not within the cooldown window and
whose price fetch succeeds, `place_limit_buy` is called if and only if the
fetched price is at most the target price — equality included, strictly
above excluded. -/
theorem c1_order_attempt_iff_price_le_target (cfg : LoopConfig) (st : BotState)
    (inp : IterInput) (price : ℚ)
    (hfetch : get_current_price inp.quote = .ok price)
    (hcool : ¬ (inp.now - st.last_buy_time < cfg.buy_cooldown)) :
    ((stepIter cfg st inp).2.attemptsOrder = true ↔ price ≤ cfg.target_price) :=
  stepIter_attemptsOrder_iff cfg st inp price hfetch hcool

/-- C1 witness: a price exactly equal to the target (90000) triggers a buy
attempt in the first iteration at epoch 604800. -/
theorem c1_order_attempt_iff_price_le_target_witness :
    ((stepIter mainConfig initialState
      { now := 604800, quote := .value 90000,
        order_response := .success "oid-w1", uuid := "u-w1" }).2.attemptsOrder = true
      ↔ (90000 : ℚ) ≤ mainConfig.target_price) :=
  c1_order_attempt_iff_price_le_target mainConfig initialState
    { now := 604800, quote := .value 90000,
      order_response := .success "oid-w1", uuid := "u-w1" } 90000 rfl
    (by norm_num [initialState, mainConfig, BUY_COOLDOWN])

/-- C2: for all spend > 0 and limit price > 0, `place_limit_buy` computes
the base quantity as spend / limit price and submits it rendered to exactly
8 fractional digits, with the limit price rendered to exactly 2. -/
theorem c2_base_size_and_rendering (spend price : ℚ) (pid oid : String)
    (hspend : 0 < spend) (hprice : 0 < price) :
    (place_limit_buy_request spend pid price oid).base_size
        = formatFixed (spend / price) 8 ∧
    hasFracDigits (place_limit_buy_request spend pid price oid).base_size 8 ∧
    (place_limit_buy_request spend pid price oid).limit_price
        = formatFixed price 2 ∧
    hasFracDigits (place_limit_buy_request spend pid price oid).limit_price 2 :=
  ⟨rfl, formatFixed_hasFracDigits _ _, rfl, formatFixed_hasFracDigits _ _⟩

/-- C2 witness: spend 100 at limit price 100000 yields
base_size "0.00100000" and limit_price "100000.00". -/
theorem c2_base_size_and_rendering_witness :
    ((place_limit_buy_request 100 "BTC-USD" 100000 "u-w2").base_size
        = formatFixed ((100 : ℚ) / 100000) 8 ∧
      hasFracDigits (place_limit_buy_request 100 "BTC-USD" 100000 "u-w2").base_size 8 ∧
      (place_limit_buy_request 100 "BTC-USD" 100000 "u-w2").limit_price
        = formatFixed (100000 : ℚ) 2 ∧
      hasFracDigits (place_limit_buy_request 100 "BTC-USD" 100000 "u-w2").limit_price 2) ∧
    (place_limit_buy_request 100 "BTC-USD" 100000 "u-w2").base_size = "0.00100000" ∧
    (place_limit_buy_request 100 "BTC-USD" 100000 "u-w2").limit_price = "100000.00" := by
  refine ⟨c2_base_size_and_rendering 100 100000 "BTC-USD" "u-w2"
    (by norm_num) (by norm_num), ?_, ?_⟩
  · show formatFixed ((100 : ℚ) / 100000) 8 = "0.00100000"
    rw [formatFixed_of_decScaled _ _ 100000 ((decScaled_eq_iff _ _ _).mpr (by norm_num))]
    decide
  · decide

/-- C3 counterexample: with target 90000 and live price 100000 the loop does
not decide to buy at all — the price is above the target — so no order with
limit "100000.00" is submitted in that scenario. -/
theorem c3_counterexample :
    (stepIter mainConfig initialState
      { now := 604800, quote := .value 100000,
        order_response := .success "oid-c3", uuid := "u-c3" }).2.attemptsOrder = false := by
  rw [stepIter_noBuy mainConfig initialState
    { now := 604800, quote := .value 100000,
      order_response := .success "oid-c3", uuid := "u-c3" } 100000 rfl
    (by norm_num [initialState, mainConfig, BUY_COOLDOWN])
    (by norm_num [mainConfig, TARGET_PRICE])]
  rfl

/-- C3 (amended): whenever the loop decides to buy, the submitted order is
built from the fixed configured target price — the limit is the target
rendered to 2 fractional digits and the base quantity is spend / target —
never from the live fetched price. -/
theorem c3_buy_submits_at_target_price (cfg : LoopConfig) (st : BotState)
    (inp : IterInput) (req : OrderRequest) (resp : OrderResponse)
    (h : (stepIter cfg st inp).2 = .buy_attempt req resp) :
    req = place_limit_buy_request cfg.usd_to_spend cfg.product_id
        cfg.target_price inp.uuid ∧
    req.limit_price = formatFixed cfg.target_price 2 ∧
    req.base_size = formatFixed (cfg.usd_to_spend / cfg.target_price) 8 ∧
    resp = inp.order_response := by
  rcases hq : get_current_price inp.quote with msg | price
  · rw [stepIter_fetchError cfg st inp msg hq] at h
    simp at h
  · by_cases hcool : inp.now - st.last_buy_time < cfg.buy_cooldown
    · rw [stepIter_onCooldown cfg st inp price hq hcool] at h
      simp at h
    · by_cases hle : price ≤ cfg.target_price
      · rw [stepIter_buy cfg st inp price hq hcool hle] at h
        simp only [IterAction.buy_attempt.injEq] at h
        rcases h with ⟨rfl, rfl⟩
        exact ⟨rfl, rfl, rfl, rfl⟩
      · rw [stepIter_noBuy cfg st inp price hq hcool hle] at h
        simp at h

/-- C3 witness: with target 90000, spend 100 and live price 85000 the loop
buys, and the submitted order carries limit "90000.00" and quantity
"0.00111111" — computed from the target, not the live price. -/
theorem c3_buy_submits_at_target_price_witness :
    (place_limit_buy_request USD_TO_SPEND PRODUCT_ID TARGET_PRICE "u-c3w"
        = place_limit_buy_request mainConfig.usd_to_spend mainConfig.product_id
            mainConfig.target_price "u-c3w" ∧
      (place_limit_buy_request USD_TO_SPEND PRODUCT_ID TARGET_PRICE "u-c3w").limit_price
        = formatFixed mainConfig.target_price 2 ∧
      (place_limit_buy_request USD_TO_SPEND PRODUCT_ID TARGET_PRICE "u-c3w").base_size
        = formatFixed (mainConfig.usd_to_spend / mainConfig.target_price) 8 ∧
      OrderResponse.success "oid-c3w" =
        ({ now := 604800, quote := .value 85000,
           order_response := .success "oid-c3w", uuid := "u-c3w" } : IterInput).order_response) ∧
    (place_limit_buy_request USD_TO_SPEND PRODUCT_ID TARGET_PRICE "u-c3w").limit_price
      = "90000.00" ∧
    (place_limit_buy_request USD_TO_SPEND PRODUCT_ID TARGET_PRICE "u-c3w").base_size
      = "0.00111111" := by
  refine ⟨c3_buy_submits_at_target_price mainConfig initialState
      { now := 604800, quote := .value 85000,
        order_response := .success "oid-c3w", uuid := "u-c3w" }
      (place_limit_buy_request USD_TO_SPEND PRODUCT_ID TARGET_PRICE "u-c3w")
      (.success "oid-c3w") ?_, ?_, ?_⟩
  · rw [stepIter_buy mainConfig initialState
      { now := 604800, quote := .value 85000,
        order_response := .success "oid-c3w", uuid := "u-c3w" } 85000 rfl
      (by norm_num [initialState, mainConfig, BUY_COOLDOWN])
      (by norm_num [mainConfig, TARGET_PRICE])]
    rfl
  · show formatFixed TARGET_PRICE 2 = "90000.00"
    decide
  · show formatFixed (USD_TO_SPEND / TARGET_PRICE) 8 = "0.00111111"
    rw [formatFixed_of_decScaled _ _ 111111 ((decScaled_eq_iff _ _ _).mpr
      (by norm_num [USD_TO_SPEND, TARGET_PRICE]))]
    decide

/-- C4: while `now - last_buy_time < cooldown` no order is attempted
regardless of the fetched price, and once `now - last_buy_time ≥ cooldown`
the price comparison is re-evaluated normally: an order is attempted exactly
when the price is at most the target. -/
theorem c4_cooldown_window_gates_orders (cfg : LoopConfig) (st : BotState)
    (inp : IterInput) :
    (inp.now - st.last_buy_time < cfg.buy_cooldown →
      (stepIter cfg st inp).2.attemptsOrder = false) ∧
    (∀ price : ℚ, ¬ (inp.now - st.last_buy_time < cfg.buy_cooldown) →
      get_current_price inp.quote = .ok price →
      ((stepIter cfg st inp).2.attemptsOrder = true ↔ price ≤ cfg.target_price)) := by
  constructor
  · intro hcool
    rcases hq : get_current_price inp.quote with msg | price
    · rw [stepIter_fetchError cfg st inp msg hq]
      rfl
    · rw [stepIter_onCooldown cfg st inp price hq hcool]
      rfl
  · intro price hcool hq
    exact stepIter_attemptsOrder_iff cfg st inp price hq hcool

/-- C4 witness: one second after a buy at epoch 604800 the iteration stays
on cooldown and attempts no order even at a price far below the target. -/
theorem c4_cooldown_window_gates_orders_witness :
    (stepIter mainConfig { last_buy_time := 604800 }
      { now := 604801, quote := .value 1,
        order_response := .success "oid-w4", uuid := "u-w4" }).2.attemptsOrder = false :=
  (c4_cooldown_window_gates_orders mainConfig { last_buy_time := 604800 }
    { now := 604801, quote := .value 1,
      order_response := .success "oid-w4", uuid := "u-w4" }).1
    (by norm_num [mainConfig, BUY_COOLDOWN])

/-- C5 counterexample: a successful order does not terminate the watch loop.
Starting from the initial state, an iteration at epoch 604800 with price
85000 succeeds, and one cooldown later the loop still runs and succeeds
again — two successful orders in one run, with iterations after the first
success. -/
theorem c5_counterexample :
    (runIters mainConfig initialState
      [{ now := 604800, quote := .value 85000,
         order_response := .success "oid-c5a", uuid := "u-c5a" },
       { now := 1209600, quote := .value 85000,
         order_response := .success "oid-c5b", uuid := "u-c5b" }]
      ).2.map IterAction.orderSucceeded = [true, true] := by
  simp [runIters, stepIter, get_current_price, mainConfig, initialState, TARGET_PRICE,
    BUY_COOLDOWN, USD_TO_SPEND, PRODUCT_ID, IterAction.orderSucceeded,
    place_limit_buy_result, pyTruthy]
  norm_num
  decide

/-- C5 (amended): the loop has no single-shot mode and no exit at all — it
processes every iteration of its input regardless of order outcomes, so
neither a successful nor a failed order attempt terminates it. -/
theorem c5_no_iteration_terminates_loop (cfg : LoopConfig) (st : BotState)
    (inps : List IterInput) :
    ((runIters cfg st inps).2).length = inps.length :=
  runIters_length cfg st inps

/-- C6: an absent or malformed price field makes `get_current_price` fail
with an error; the loop catches it, reports it, leaves the state unchanged
and still processes every following iteration. -/
theorem c6_price_fetch_error_is_nonfatal (cfg : LoopConfig) (st : BotState)
    (inp : IterInput) (rest : List IterInput)
    (h : inp.quote = .absent ∨ ∃ raw, inp.quote = .malformed raw) :
    ∃ msg, get_current_price inp.quote = .error msg ∧
      stepIter cfg st inp = (st, .fetch_error msg) ∧
      ((runIters cfg st (inp :: rest)).2).length = rest.length + 1 := by
  have hlen : ((runIters cfg st (inp :: rest)).2).length = rest.length + 1 := by
    rw [runIters_length]
    rfl
  rcases h with h | ⟨raw, h⟩
  · exact ⟨_, by rw [h]; rfl, stepIter_fetchError cfg st inp _ (by rw [h]; rfl), hlen⟩
  · exact ⟨_, by rw [h]; rfl, stepIter_fetchError cfg st inp _ (by rw [h]; rfl), hlen⟩

/-- C6 witness: a quote without a price field is reported and the next
iteration still runs. -/
theorem c6_price_fetch_error_is_nonfatal_witness :
    ∃ msg, get_current_price
        ({ now := 604800, quote := .absent,
           order_response := .failure "err", uuid := "u-w6" } : IterInput).quote
        = .error msg ∧
      stepIter mainConfig initialState
        { now := 604800, quote := .absent,
          order_response := .failure "err", uuid := "u-w6" }
        = (initialState, .fetch_error msg) ∧
      ((runIters mainConfig initialState
        [{ now := 604800, quote := .absent,
           order_response := .failure "err", uuid := "u-w6" },
         { now := 604810, quote := .value 85000,
           order_response := .success "oid-w6", uuid := "u-w6b" }]).2).length = 1 + 1 :=
  c6_price_fetch_error_is_nonfatal mainConfig initialState
    { now := 604800, quote := .absent,
      order_response := .failure "err", uuid := "u-w6" }
    [{ now := 604810, quote := .value 85000,
       order_response := .success "oid-w6", uuid := "u-w6b" }]
    (Or.inl rfl)

/-- C7: `last_buy_time` is set to the current time exactly when the order
attempt succeeds with a truthy order id; on any other outcome — including a
failed order, whose error payload is carried on the reported action — the
state is unchanged. -/
theorem c7_state_updates_iff_order_succeeds (cfg : LoopConfig) (st : BotState)
    (inp : IterInput) :
    ((stepIter cfg st inp).2.orderSucceeded = true →
      (stepIter cfg st inp).1 = { last_buy_time := inp.now }) ∧
    ((stepIter cfg st inp).2.orderSucceeded = false →
      (stepIter cfg st inp).1 = st) ∧
    (∀ req e, (stepIter cfg st inp).2 = .buy_attempt req (.failure e) →
      inp.order_response = .failure e ∧ (stepIter cfg st inp).1 = st) := by
  rcases hq : get_current_price inp.quote with msg | price
  · rw [stepIter_fetchError cfg st inp msg hq]
    exact ⟨fun h => Bool.noConfusion h, fun _ => rfl, fun req e h => IterAction.noConfusion h⟩
  · by_cases hcool : inp.now - st.last_buy_time < cfg.buy_cooldown
    · rw [stepIter_onCooldown cfg st inp price hq hcool]
      exact ⟨fun h => Bool.noConfusion h, fun _ => rfl, fun req e h => IterAction.noConfusion h⟩
    · by_cases hle : price ≤ cfg.target_price
      · rw [stepIter_buy cfg st inp price hq hcool hle]
        rcases hresp : inp.order_response with oid | err
        · by_cases hoid : oid = ""
          · subst hoid
            refine ⟨by intro h; simp [IterAction.orderSucceeded] at h, ?_, ?_⟩
            · intro _
              simp [place_limit_buy_result, pyTruthy]
            · intro req e h
              simp [IterAction.buy_attempt.injEq] at h
          · refine ⟨?_, ?_, ?_⟩
            · intro _
              simp [place_limit_buy_result, pyTruthy, hoid]
            · intro h
              simp [IterAction.orderSucceeded, hoid] at h
            · intro req e h
              simp [IterAction.buy_attempt.injEq] at h
        · refine ⟨?_, ?_, ?_⟩
          · intro h
            simp [IterAction.orderSucceeded] at h
          · intro _
            simp [place_limit_buy_result, pyTruthy]
          · intro req e h
            simp only [IterAction.buy_attempt.injEq] at h
            refine ⟨by rw [h.2], ?_⟩
            simp [place_limit_buy_result, pyTruthy]
      · rw [stepIter_noBuy cfg st inp price hq hcool hle]
        exact ⟨fun h => Bool.noConfusion h, fun _ => rfl, fun req e h => IterAction.noConfusion h⟩

/-- C7 witness: a successful order at epoch 604800 records that instant as
`last_buy_time`. -/
theorem c7_state_updates_iff_order_succeeds_witness :
    (stepIter mainConfig initialState
      { now := 604800, quote := .value 85000,
        order_response := .success "oid-w7", uuid := "u-w7" }).1
      = { last_buy_time := 604800 } := by
  apply (c7_state_updates_iff_order_succeeds mainConfig initialState
    { now := 604800, quote := .value 85000,
      order_response := .success "oid-w7", uuid := "u-w7" }).1
  rw [stepIter_buy mainConfig initialState
      { now := 604800, quote := .value 85000,
        order_response := .success "oid-w7", uuid := "u-w7" } 85000 rfl
      (by norm_num [initialState, mainConfig, BUY_COOLDOWN])
      (by norm_num [mainConfig, TARGET_PRICE])]
  decide

/-- A credential error propagates out of `main` before the loop runs. -/
lemma mainRun_of_get_client_error (env : Env) (fs : Fs) (msg : String)
    (h : get_client env fs = .error msg) :
    ∀ inputs, mainRun env fs inputs = .error msg := by
  intro inputs
  unfold mainRun
  rw [h]

/-- C8: every missing, unreadable or malformed credential configuration
makes `get_client` fail, the failure aborts `main` before any loop
iteration, and the diagnostic is one of the startup messages, naming the
unreadable path or the missing fields. -/
theorem c8_bad_credentials_abort_before_loop (env : Env) (fs : Fs)
    (h : badCredConfig env fs = true) :
    ∃ msg, get_client env fs = .error msg ∧
      (∀ inputs, mainRun env fs inputs = .error msg) ∧
      (msg = "COINBASE_API_JSON_PATH does not exist: "
          ++ env.coinbase_api_json_path.getD ""
        ∨ (∃ detail, msg = "Failed to read or parse JSON credentials at "
            ++ env.coinbase_api_json_path.getD "" ++ ": " ++ detail)
        ∨ msg = "JSON credentials must contain 'id' and 'privateKey' fields from Coinbase."
        ∨ msg = "Empty 'id' or 'privateKey' in JSON credentials."
        ∨ msg = "Provide COINBASE_API_JSON_PATH or both COINBASE_API_KEY and COINBASE_API_SECRET.") := by
  unfold badCredConfig at h
  by_cases hjson : pyTruthy env.coinbase_api_json_path = true
  · rw [if_pos hjson] at h
    rcases hfs : fs (env.coinbase_api_json_path.getD "") with _ | detail | fields
    · have hgc : get_client env fs = .error ("COINBASE_API_JSON_PATH does not exist: "
          ++ env.coinbase_api_json_path.getD "") := by
        simp [get_client, hjson, load_credentials_from_json, hfs]
      exact ⟨_, hgc, mainRun_of_get_client_error env fs _ hgc, Or.inl rfl⟩
    · have hgc : get_client env fs = .error ("Failed to read or parse JSON credentials at "
          ++ env.coinbase_api_json_path.getD "" ++ ": " ++ detail) := by
        simp [get_client, hjson, load_credentials_from_json, hfs]
      exact ⟨_, hgc, mainRun_of_get_client_error env fs _ hgc,
        Or.inr (Or.inl ⟨detail, rfl⟩)⟩
    · simp only [hfs] at h
      rcases hid : fields.lookup "id" with _ | idField
      · have hgc : get_client env fs
            = .error "JSON credentials must contain 'id' and 'privateKey' fields from Coinbase." := by
          simp [get_client, hjson, load_credentials_from_json, hfs, hid]
        exact ⟨_, hgc, mainRun_of_get_client_error env fs _ hgc,
          Or.inr (Or.inr (Or.inl rfl))⟩
      · rcases hkey : fields.lookup "privateKey" with _ | keyField
        · have hgc : get_client env fs
              = .error "JSON credentials must contain 'id' and 'privateKey' fields from Coinbase." := by
            simp [get_client, hjson, load_credentials_from_json, hfs, hid, hkey]
          exact ⟨_, hgc, mainRun_of_get_client_error env fs _ hgc,
            Or.inr (Or.inr (Or.inl rfl))⟩
        · simp only [hid, hkey] at h
          have hempty : (pyStrip idField == ""
              || pyStrip (pyReplaceEscapedNewlines keyField) == "") = true := h
          have hgc : get_client env fs
              = .error "Empty 'id' or 'privateKey' in JSON credentials." := by
            simp only [get_client, hjson, if_true, load_credentials_from_json, hfs,
              hid, hkey, hempty, if_pos]
          exact ⟨_, hgc, mainRun_of_get_client_error env fs _ hgc,
            Or.inr (Or.inr (Or.inr (Or.inl rfl)))⟩
  · rw [if_neg hjson] at h
    have hjf : pyTruthy env.coinbase_api_json_path = false :=
      Bool.not_eq_true _ ▸ Bool.of_not_eq_true hjson
    simp only [Bool.or_eq_true, Bool.not_eq_true'] at h
    have hc : (pyTruthy env.coinbase_api_key && pyTruthy env.coinbase_api_secret) = false := by
      rcases h with h | h <;> simp [h]
    have hgc : get_client env fs
        = .error "Provide COINBASE_API_JSON_PATH or both COINBASE_API_KEY and COINBASE_API_SECRET." := by
      simp [get_client, hjf, hc]
    exact ⟨_, hgc, mainRun_of_get_client_error env fs _ hgc,
      Or.inr (Or.inr (Or.inr (Or.inr rfl)))⟩

/-- C8 witness: a nonexistent JSON credential path is fatal before the loop
and the diagnostic names the path. -/
theorem c8_bad_credentials_abort_before_loop_witness :
    ∃ msg, get_client
        { coinbase_api_json_path := some "/nonexistent/path.json",
          coinbase_api_key := none, coinbase_api_secret := none }
        (fun _ => FileRead.absent) = .error msg ∧
      (∀ inputs, mainRun
        { coinbase_api_json_path := some "/nonexistent/path.json",
          coinbase_api_key := none, coinbase_api_secret := none }
        (fun _ => FileRead.absent) inputs = .error msg) ∧
      (msg = "COINBASE_API_JSON_PATH does not exist: "
          ++ (Env.mk (some "/nonexistent/path.json") none none).coinbase_api_json_path.getD ""
        ∨ (∃ detail, msg = "Failed to read or parse JSON credentials at "
            ++ (Env.mk (some "/nonexistent/path.json") none none).coinbase_api_json_path.getD ""
            ++ ": " ++ detail)
        ∨ msg = "JSON credentials must contain 'id' and 'privateKey' fields from Coinbase."
        ∨ msg = "Empty 'id' or 'privateKey' in JSON credentials."
        ∨ msg = "Provide COINBASE_API_JSON_PATH or both COINBASE_API_KEY and COINBASE_API_SECRET.") :=
  c8_bad_credentials_abort_before_loop
    { coinbase_api_json_path := some "/nonexistent/path.json",
      coinbase_api_key := none, coinbase_api_secret := none }
    (fun _ => FileRead.absent) (by decide)

/-- C9: a truthy `COINBASE_API_JSON_PATH` makes `get_client` ignore
`COINBASE_API_KEY` and `COINBASE_API_SECRET` entirely — changing them does
not change the result — and a nonexistent path is fatal even when both are
set. -/
theorem c9_json_path_takes_precedence (env : Env) (fs : Fs) (k s : Option String)
    (hjson : pyTruthy env.coinbase_api_json_path = true) :
    get_client { env with coinbase_api_key := k, coinbase_api_secret := s } fs
      = get_client env fs ∧
    (fs (env.coinbase_api_json_path.getD "") = .absent →
      get_client env fs = .error ("COINBASE_API_JSON_PATH does not exist: "
        ++ env.coinbase_api_json_path.getD "")) := by
  constructor
  · simp [get_client, hjson]
  · intro habs
    simp [get_client, hjson, load_credentials_from_json, habs]

/-- C9 witness: with a JSON path set to a nonexistent file and valid-looking
key/secret environment variables, the credential error still occurs, and
swapping the key/secret variables changes nothing. -/
theorem c9_json_path_takes_precedence_witness :
    get_client
      { coinbase_api_json_path := some "creds.json",
        coinbase_api_key := some "OTHERKEY", coinbase_api_secret := some "OTHERSECRET" }
      (fun _ => FileRead.absent)
      = get_client
        { coinbase_api_json_path := some "creds.json",
          coinbase_api_key := some "ENVKEY", coinbase_api_secret := some "ENVSECRET" }
        (fun _ => FileRead.absent) ∧
    ((fun _ => FileRead.absent : Fs)
        ((Env.mk (some "creds.json") (some "ENVKEY") (some "ENVSECRET")).coinbase_api_json_path.getD "")
        = .absent →
      get_client
        { coinbase_api_json_path := some "creds.json",
          coinbase_api_key := some "ENVKEY", coinbase_api_secret := some "ENVSECRET" }
        (fun _ => FileRead.absent)
        = .error ("COINBASE_API_JSON_PATH does not exist: "
          ++ (Env.mk (some "creds.json") (some "ENVKEY") (some "ENVSECRET")).coinbase_api_json_path.getD "")) :=
  c9_json_path_takes_precedence
    { coinbase_api_json_path := some "creds.json",
      coinbase_api_key := some "ENVKEY", coinbase_api_secret := some "ENVSECRET" }
    (fun _ => FileRead.absent) (some "OTHERKEY") (some "OTHERSECRET") (by decide)

/-- C10: `last_buy_time` starts at 0, so whenever the current epoch time is
at least the configured cooldown the very first iteration is not on
cooldown and the price comparison happens immediately. -/
theorem c10_no_initial_cooldown (inp : IterInput) (price : ℚ)
    (hnow : BUY_COOLDOWN ≤ inp.now)
    (hfetch : get_current_price inp.quote = .ok price) :
    initialState.last_buy_time = 0 ∧
    (stepIter mainConfig initialState inp).2 ≠ IterAction.on_cooldown ∧
    ((stepIter mainConfig initialState inp).2.attemptsOrder = true
      ↔ price ≤ TARGET_PRICE) := by
  have hcool : ¬ (inp.now - initialState.last_buy_time < mainConfig.buy_cooldown) := by
    have hle : BUY_COOLDOWN ≤ inp.now - initialState.last_buy_time := by
      simpa [initialState] using hnow
    simpa [mainConfig] using not_lt.mpr hle
  refine ⟨rfl, ?_, stepIter_attemptsOrder_iff mainConfig initialState inp price hfetch hcool⟩
  by_cases hle : price ≤ mainConfig.target_price
  · rw [stepIter_buy mainConfig initialState inp price hfetch hcool hle]
    simp
  · rw [stepIter_noBuy mainConfig initialState inp price hfetch hcool hle]
    simp

/-- C10 witness: at epoch 604800 (one cooldown after epoch 0) the first
iteration compares the price immediately and buys at the target. -/
theorem c10_no_initial_cooldown_witness :
    initialState.last_buy_time = 0 ∧
    (stepIter mainConfig initialState
      { now := 604800, quote := .value 90000,
        order_response := .success "oid-w10", uuid := "u-w10" }).2 ≠ IterAction.on_cooldown ∧
    ((stepIter mainConfig initialState
      { now := 604800, quote := .value 90000,
        order_response := .success "oid-w10", uuid := "u-w10" }).2.attemptsOrder = true
      ↔ (90000 : ℚ) ≤ TARGET_PRICE) :=
  c10_no_initial_cooldown
    { now := 604800, quote := .value 90000,
      order_response := .success "oid-w10", uuid := "u-w10" } 90000
    (by norm_num [BUY_COOLDOWN]) rfl

end BtcBot
